import Mathlib

/-!
Verification of the geofence / decision core of the Smart Maritime Border
Security System (`app3.py`).

The embedding below mirrors the Python source:

* `haversine` — great-circle distance on a sphere of radius 6371 km
  (`app3.py`, `haversine`), split into the intermediate quantity `hav_a`
  (the variable `a` of the source) and the final distance.
* `check_boundary_distance` — the fold of the loop of the source
  `for point in boundary_points: ...` starting from `min_distance = inf`;
  the value `float(inf)` is modelled as `⊤ : WithTop ℝ`.
* `check_geofence_status` — returns `(0, d)` (alert zone) when
  `d ≤ safe_distance_km`, else `(1, d)` (safe zone).  The global dictionary
  `GEOFENCE_CONFIG` is passed as an explicit parameter; the fixed
  configuration of the source is the constant `GEOFENCE_CONFIG`.
* `analyze_boat_data` — the decision engine.  The globals `model` and
  `scaler` are passed as `Option`-valued parameters; an invocation of
  `scaler.transform` or `model.predict` that raises is modelled by the
  function returning `Except.error`.  The zone message strings carry no
  decision content and are omitted from the embedded verdict.

Zone status encoding (as in the source): `0` = alert zone (ALERT),
`1` = safe zone (SAFE).  The model prediction `1` means SUSPICIOUS,
`0` means NORMAL.
-/

open Real

namespace Maritime

/-- A geographic point `{"lat": ..., "lng": ...}`. -/
structure GeoPt where
  lat : ℝ
  lng : ℝ

/-- The shape of the `GEOFENCE_CONFIG` dictionary of `app3.py`. -/
structure GeofenceConfig where
  tamil_nadu_points : List GeoPt
  sri_lanka_points : List GeoPt
  boundary_line : List GeoPt
  safe_distance_km : ℝ
  center : GeoPt
  zoom_level : ℤ

/-- The fixed geofence configuration of `app3.py` (lines 27–65). -/
def GEOFENCE_CONFIG : GeofenceConfig where
  tamil_nadu_points :=
    [⟨13.6288, 80.1931⟩, ⟨13.0827, 80.2707⟩, ⟨12.6195, 80.1952⟩,
     ⟨11.9314, 79.8333⟩, ⟨11.4273, 79.7662⟩, ⟨10.7870, 79.8380⟩,
     ⟨10.3833, 79.8500⟩, ⟨9.2800, 79.3100⟩, ⟨8.7642, 78.1348⟩]
  sri_lanka_points :=
    [⟨9.8152, 80.0299⟩, ⟨9.6700, 80.2500⟩, ⟨8.9500, 81.0000⟩,
     ⟨8.3400, 81.3300⟩, ⟨7.2800, 81.6700⟩]
  boundary_line :=
    [⟨10.05, 80.03⟩, ⟨9.5, 79.9⟩, ⟨9.22, 79.8⟩,
     ⟨8.9, 79.7⟩, ⟨8.2, 79.35⟩]
  safe_distance_km := 12
  center := ⟨9.0000, 79.8000⟩
  zoom_level := 7

/-- `math.radians`: degrees to radians. -/
noncomputable def radians (x : ℝ) : ℝ := x * Real.pi / 180

/-- The intermediate quantity `a` of the haversine formula in `app3.py`:
`a = sin(dlat/2)**2 + cos(lat1) * cos(lat2) * sin(dlon/2)**2` after the
four inputs have been converted to radians. -/
noncomputable def hav_a (lat1 lon1 lat2 lon2 : ℝ) : ℝ :=
  Real.sin ((radians lat2 - radians lat1) / 2) ^ 2 +
    Real.cos (radians lat1) * Real.cos (radians lat2) *
      Real.sin ((radians lon2 - radians lon1) / 2) ^ 2

/-- `haversine(lat1, lon1, lat2, lon2)` of `app3.py`:
`c = 2 * asin(sqrt(a)); return c * 6371`. -/
noncomputable def haversine (lat1 lon1 lat2 lon2 : ℝ) : ℝ :=
  2 * Real.arcsin (Real.sqrt (hav_a lat1 lon1 lat2 lon2)) * 6371

open scoped Classical in
/-- `check_boundary_distance(lat, lng, boundary_points)` of `app3.py`:
starting from `min_distance = float(inf)` (here `⊤ : WithTop ℝ`), replace
the current minimum by each vertex distance that is smaller. -/
noncomputable def check_boundary_distance (lat lng : ℝ)
    (boundary_points : List GeoPt) : WithTop ℝ :=
  boundary_points.foldl
    (fun min_distance point =>
      let distance : WithTop ℝ := ((haversine lat lng point.lat point.lng : ℝ) : WithTop ℝ)
      if distance < min_distance then distance else min_distance) ⊤

open scoped Classical in
/-- `check_geofence_status(lat, lng)` of `app3.py`, with the global
`GEOFENCE_CONFIG` made an explicit parameter.  Returns `(0, d)` (alert zone)
when `d ≤ safe_distance_km`, else `(1, d)` (safe zone). -/
noncomputable def check_geofence_status (cfg : GeofenceConfig) (lat lng : ℝ) :
    ℤ × WithTop ℝ :=
  let distance_to_boundary := check_boundary_distance lat lng cfg.boundary_line
  if distance_to_boundary ≤ (cfg.safe_distance_km : WithTop ℝ) then
    (0, distance_to_boundary)
  else
    (1, distance_to_boundary)

/-- The decision-relevant fields of the tuple returned by
`analyze_boat_data` (the message string is omitted: it carries no decision
content). -/
structure Verdict where
  is_suspicious : Bool
  zone_status : ℤ
  distance : WithTop ℝ
  model_prediction : Option ℤ

/-- `analyze_boat_data(latitude, longitude, speed, direction)` of `app3.py`.
The globals `model` and `scaler` are explicit `Option` parameters; a raising
invocation is an `Except.error` result. -/
noncomputable def analyze_boat_data (cfg : GeofenceConfig)
    (model : Option (List ℝ → Except Unit ℤ))
    (scaler : Option (List ℝ → Except Unit (List ℝ)))
    (latitude longitude speed direction : ℝ) : Verdict :=
  let zs := check_geofence_status cfg latitude longitude
  let zone_status := zs.1
  let distance := zs.2
  if zone_status = 0 then
    { is_suspicious := true, zone_status := zone_status, distance := distance,
      model_prediction := none }
  else
    match model, scaler with
    | some m, some s =>
        let behavior_label : ℝ := 0
        let new_boat_data : List ℝ :=
          [latitude, longitude, speed, direction, (zone_status : ℝ), behavior_label]
        match s new_boat_data with
        | Except.error _ =>
            { is_suspicious := false, zone_status := zone_status, distance := distance,
              model_prediction := none }
        | Except.ok new_boat_scaled =>
            match m new_boat_scaled with
            | Except.error _ =>
                { is_suspicious := false, zone_status := zone_status, distance := distance,
                  model_prediction := none }
            | Except.ok p =>
                { is_suspicious := decide (p = 1), zone_status := zone_status,
                  distance := distance, model_prediction := some p }
    | _, _ =>
        { is_suspicious := false, zone_status := zone_status, distance := distance,
          model_prediction := none }

open scoped Classical in
/-- The loop body of `check_boundary_distance`, as a named function so the
fold can be reasoned about by induction. -/
noncomputable def minStep (lat lng : ℝ) (min_distance : WithTop ℝ)
    (point : GeoPt) : WithTop ℝ :=
  let distance : WithTop ℝ := ((haversine lat lng point.lat point.lng : ℝ) : WithTop ℝ)
  if distance < min_distance then distance else min_distance

lemma check_boundary_distance_eq_foldl (lat lng : ℝ) (pts : List GeoPt) :
    check_boundary_distance lat lng pts = pts.foldl (minStep lat lng) ⊤ := rfl

lemma minStep_le_left (lat lng : ℝ) (m : WithTop ℝ) (p : GeoPt) :
    minStep lat lng m p ≤ m := by
  unfold minStep
  dsimp only
  split
  · next h => exact le_of_lt h
  · exact le_refl m

lemma minStep_le_right (lat lng : ℝ) (m : WithTop ℝ) (p : GeoPt) :
    minStep lat lng m p ≤ ((haversine lat lng p.lat p.lng : ℝ) : WithTop ℝ) := by
  unfold minStep
  dsimp only
  split
  · exact le_refl _
  · next h => exact le_of_not_lt h

lemma foldl_minStep_le_init (lat lng : ℝ) (l : List GeoPt) :
    ∀ init : WithTop ℝ, l.foldl (minStep lat lng) init ≤ init := by
  induction l with
  | nil => intro init; exact le_refl init
  | cons p l ih =>
      intro init
      calc (p :: l).foldl (minStep lat lng) init
          = l.foldl (minStep lat lng) (minStep lat lng init p) := rfl
        _ ≤ minStep lat lng init p := ih _
        _ ≤ init := minStep_le_left _ _ _ _

lemma foldl_minStep_le_elem (lat lng : ℝ) (l : List GeoPt) :
    ∀ init : WithTop ℝ, ∀ p ∈ l,
      l.foldl (minStep lat lng) init ≤
        ((haversine lat lng p.lat p.lng : ℝ) : WithTop ℝ) := by
  induction l with
  | nil => intro init p hp; cases hp
  | cons q l ih =>
      intro init p hp
      rcases List.mem_cons.mp hp with rfl | hp
      · calc (p :: l).foldl (minStep lat lng) init
            = l.foldl (minStep lat lng) (minStep lat lng init p) := rfl
          _ ≤ minStep lat lng init p := foldl_minStep_le_init _ _ l _
          _ ≤ _ := minStep_le_right _ _ _ _
      · exact ih (minStep lat lng init q) p hp

lemma foldl_minStep_attained (lat lng : ℝ) (l : List GeoPt) :
    ∀ init : WithTop ℝ,
      (∃ p ∈ l, l.foldl (minStep lat lng) init =
        ((haversine lat lng p.lat p.lng : ℝ) : WithTop ℝ)) ∨
      l.foldl (minStep lat lng) init = init := by
  induction l with
  | nil => intro init; exact Or.inr rfl
  | cons q l ih =>
      intro init
      have hstep : (q :: l).foldl (minStep lat lng) init =
          l.foldl (minStep lat lng) (minStep lat lng init q) := rfl
      rcases ih (minStep lat lng init q) with ⟨p, hp, h⟩ | h
      · exact Or.inl ⟨p, List.mem_cons_of_mem _ hp, hstep.trans h⟩
      · by_cases hlt :
          ((haversine lat lng q.lat q.lng : ℝ) : WithTop ℝ) < init
        · refine Or.inl ⟨q, List.mem_cons_self q l, ?_⟩
          rw [hstep, h]
          unfold minStep
          dsimp only
          rw [if_pos hlt]
        · refine Or.inr ?_
          rw [hstep, h]
          unfold minStep
          dsimp only
          rw [if_neg hlt]

lemma lt_foldl_minStep (lat lng : ℝ) (t : WithTop ℝ) (l : List GeoPt) :
    ∀ init : WithTop ℝ, t < init →
      (∀ p ∈ l, t < ((haversine lat lng p.lat p.lng : ℝ) : WithTop ℝ)) →
      t < l.foldl (minStep lat lng) init := by
  induction l with
  | nil => intro init h _; exact h
  | cons q l ih =>
      intro init hinit hall
      refine ih (minStep lat lng init q) ?_ fun p hp => hall p (List.mem_cons_of_mem _ hp)
      unfold minStep
      dsimp only
      split
      · exact hall q (List.mem_cons_self q l)
      · exact hinit

lemma haversine_nonneg (lat1 lon1 lat2 lon2 : ℝ) :
    0 ≤ haversine lat1 lon1 lat2 lon2 := by
  unfold haversine
  have h1 : 0 ≤ Real.arcsin (Real.sqrt (hav_a lat1 lon1 lat2 lon2)) :=
    Real.arcsin_nonneg.mpr (Real.sqrt_nonneg _)
  have h2 : (0 : ℝ) ≤ 2 := by norm_num
  have h3 : (0 : ℝ) ≤ 6371 := by norm_num
  exact mul_nonneg (mul_nonneg h2 h1) h3

/-! ### Basic structural lemmas -/

lemma zone_status_eq_zero_or_one (cfg : GeofenceConfig) (lat lng : ℝ) :
    (check_geofence_status cfg lat lng).1 = 0 ∨
      (check_geofence_status cfg lat lng).1 = 1 := by
  unfold check_geofence_status
  dsimp only
  split
  · exact Or.inl rfl
  · exact Or.inr rfl

lemma check_geofence_snd (cfg : GeofenceConfig) (lat lng : ℝ) :
    (check_geofence_status cfg lat lng).2 =
      check_boundary_distance lat lng cfg.boundary_line := by
  unfold check_geofence_status
  dsimp only
  split <;> rfl

lemma analyze_zone_status (cfg : GeofenceConfig)
    (model : Option (List ℝ → Except Unit ℤ))
    (scaler : Option (List ℝ → Except Unit (List ℝ))) (la lo sp di : ℝ) :
    (analyze_boat_data cfg model scaler la lo sp di).zone_status =
      (check_geofence_status cfg la lo).1 := by
  unfold analyze_boat_data
  dsimp only
  split
  · rfl
  · split
    · split
      · rfl
      · split
        · rfl
        · rfl
    · rfl

lemma analyze_distance (cfg : GeofenceConfig)
    (model : Option (List ℝ → Except Unit ℤ))
    (scaler : Option (List ℝ → Except Unit (List ℝ))) (la lo sp di : ℝ) :
    (analyze_boat_data cfg model scaler la lo sp di).distance =
      (check_geofence_status cfg la lo).2 := by
  unfold analyze_boat_data
  dsimp only
  split
  · rfl
  · split
    · split
      · rfl
      · split
        · rfl
        · rfl
    · rfl

/-! ### Claim theorems: decision engine structure -/

/-- **C2.** `check_geofence_status` reports the computed minimum boundary
distance unchanged, returns the alert status `0` exactly when that distance
is `≤ safe_distance_km` (the threshold itself counts as ALERT), and the safe
status `1` exactly when it is strictly greater. -/
theorem geofence_alert_iff_close (cfg : GeofenceConfig) (lat lng : ℝ) :
    (check_geofence_status cfg lat lng).2 =
      check_boundary_distance lat lng cfg.boundary_line ∧
    ((check_geofence_status cfg lat lng).1 = 0 ↔
      (check_geofence_status cfg lat lng).2 ≤ (cfg.safe_distance_km : WithTop ℝ)) ∧
    ((check_geofence_status cfg lat lng).1 = 1 ↔
      (cfg.safe_distance_km : WithTop ℝ) < (check_geofence_status cfg lat lng).2) := by
  unfold check_geofence_status
  dsimp only
  split
  · next hle => simp [hle, not_lt.mpr hle]
  · next hgt => simp [hgt, not_le.mp hgt]

/-- **C8.** The haversine distance is symmetric in its two points. -/
theorem haversine_symm (lat1 lon1 lat2 lon2 : ℝ) :
    haversine lat1 lon1 lat2 lon2 = haversine lat2 lon2 lat1 lon1 := by
  unfold haversine hav_a
  have hs : ∀ x y : ℝ, Real.sin ((x - y) / 2) ^ 2 = Real.sin ((y - x) / 2) ^ 2 := by
    intro x y
    rw [show (x - y) / 2 = -((y - x) / 2) by ring, Real.sin_neg, neg_sq]
  rw [hs (radians lat2) (radians lat1), hs (radians lon2) (radians lon1),
    mul_comm (Real.cos (radians lat2)) (Real.cos (radians lat1))]

/-- **C9.** The zone status and the reported distance depend only on the
position of the observation, never on its speed or direction. -/
theorem zone_and_distance_ignore_speed_direction (cfg : GeofenceConfig)
    (model : Option (List ℝ → Except Unit ℤ))
    (scaler : Option (List ℝ → Except Unit (List ℝ)))
    (la lo sp1 di1 sp2 di2 : ℝ) :
    (analyze_boat_data cfg model scaler la lo sp1 di1).zone_status =
      (analyze_boat_data cfg model scaler la lo sp2 di2).zone_status ∧
    (analyze_boat_data cfg model scaler la lo sp1 di1).distance =
      (analyze_boat_data cfg model scaler la lo sp2 di2).distance := by
  constructor
  · rw [analyze_zone_status, analyze_zone_status]
  · rw [analyze_distance, analyze_distance]

/-- **C1.** The verdict is suspicious exactly when the zone status is ALERT
(`0`), or the zone status is SAFE (`1`) and the recorded model prediction is
SUSPICIOUS (`some 1`). -/
theorem suspicious_iff_alert_or_predicted (cfg : GeofenceConfig)
    (model : Option (List ℝ → Except Unit ℤ))
    (scaler : Option (List ℝ → Except Unit (List ℝ))) (la lo sp di : ℝ) :
    (analyze_boat_data cfg model scaler la lo sp di).is_suspicious = true ↔
      ((analyze_boat_data cfg model scaler la lo sp di).zone_status = 0 ∨
       ((analyze_boat_data cfg model scaler la lo sp di).zone_status = 1 ∧
        (analyze_boat_data cfg model scaler la lo sp di).model_prediction =
          some 1)) := by
  rcases zone_status_eq_zero_or_one cfg la lo with h | h
  · unfold analyze_boat_data
    simp [h]
  · unfold analyze_boat_data
    rcases model with _ | m <;> rcases scaler with _ | s
    · simp [h]
    · simp [h]
    · simp [h]
    · simp only [h]
      norm_num
      rcases hs : s [la, lo, sp, di, (1 : ℝ), 0] with e | sc
      · simp [hs]
      · simp only [hs]
        rcases hm : m sc with e | p
        · simp [hm]
        · simp [hm, decide_eq_true_iff]

/-- **C6.** In the ALERT zone the verdict is suspicious and the model
prediction is absent, regardless of the classifier parameters. -/
theorem alert_zone_suspicious_no_model (cfg : GeofenceConfig)
    (model : Option (List ℝ → Except Unit ℤ))
    (scaler : Option (List ℝ → Except Unit (List ℝ))) (la lo sp di : ℝ)
    (h : (analyze_boat_data cfg model scaler la lo sp di).zone_status = 0) :
    (analyze_boat_data cfg model scaler la lo sp di).is_suspicious = true ∧
    (analyze_boat_data cfg model scaler la lo sp di).model_prediction = none := by
  rw [analyze_zone_status] at h
  unfold analyze_boat_data
  simp [h]

/-- **C7.** For a non-empty boundary line the computed distance is a
nonnegative real number, is a lower bound of the haversine distances to all
vertices, and is attained at a vertex: it is the minimum over all vertices
of the vertex distance (vertex-only, not point-to-segment). -/
theorem boundary_distance_is_vertex_min (lat lng : ℝ) (pts : List GeoPt)
    (h : pts ≠ []) :
    ∃ r : ℝ, check_boundary_distance lat lng pts = (r : WithTop ℝ) ∧ 0 ≤ r ∧
      (∀ p ∈ pts, r ≤ haversine lat lng p.lat p.lng) ∧
      (∃ p ∈ pts, r = haversine lat lng p.lat p.lng) := by
  rw [check_boundary_distance_eq_foldl]
  rcases foldl_minStep_attained lat lng pts ⊤ with ⟨p, hp, hfold⟩ | hfold
  · refine ⟨haversine lat lng p.lat p.lng, hfold, haversine_nonneg _ _ _ _,
      ?_, ⟨p, hp, rfl⟩⟩
    intro q hq
    have hle := foldl_minStep_le_elem lat lng pts ⊤ q hq
    rw [hfold] at hle
    exact_mod_cast hle
  · exfalso
    rcases pts with _ | ⟨q, l⟩
    · exact h rfl
    have h1 := foldl_minStep_le_elem lat lng (q :: l) ⊤ q (List.mem_cons_self q l)
    rw [hfold] at h1
    exact (WithTop.not_top_le_coe _) h1

/-- Witness for C7 at a concrete singleton boundary. -/
theorem boundary_distance_is_vertex_min_witness :
    ∃ r : ℝ, check_boundary_distance 0 0 [⟨0, 0⟩] = (r : WithTop ℝ) ∧ 0 ≤ r ∧
      (∀ p ∈ [(⟨0, 0⟩ : GeoPt)], r ≤ haversine 0 0 p.lat p.lng) ∧
      (∃ p ∈ [(⟨0, 0⟩ : GeoPt)], r = haversine 0 0 p.lat p.lng) :=
  boundary_distance_is_vertex_min 0 0 [⟨0, 0⟩] (List.cons_ne_nil _ _)

/-- **C4** counterexample: on an empty boundary list `check_boundary_distance`
does not fail — it returns the value `⊤` (the embedding of `float(inf)`),
and classification then proceeds and yields the SAFE status. -/
theorem empty_boundary_returns_inf :
    check_boundary_distance 0 0 [] = ⊤ := rfl

/-- **C4** amended: with an empty boundary line, `check_boundary_distance`
returns infinity (`⊤`, the embedding of `float(inf)`) rather than raising,
and `check_geofence_status` classifies every point as SAFE (`1`) with the
infinite distance. -/
theorem empty_boundary_inf_and_safe (cfg : GeofenceConfig) (lat lng : ℝ)
    (h : cfg.boundary_line = []) :
    check_boundary_distance lat lng cfg.boundary_line = ⊤ ∧
    check_geofence_status cfg lat lng = (1, ⊤) := by
  have hd : check_boundary_distance lat lng cfg.boundary_line = ⊤ := by
    rw [h]
    rfl
  refine ⟨hd, ?_⟩
  unfold check_geofence_status
  dsimp only
  rw [hd, if_neg (WithTop.not_top_le_coe _)]

/-- Witness for the amended C4 at a concrete empty configuration. -/
theorem empty_boundary_inf_and_safe_witness :
    check_boundary_distance 0 0
        (GeofenceConfig.mk [] [] [] 12 ⟨0, 0⟩ 7).boundary_line = ⊤ ∧
    check_geofence_status (GeofenceConfig.mk [] [] [] 12 ⟨0, 0⟩ 7) 0 0 = (1, ⊤) :=
  empty_boundary_inf_and_safe (GeofenceConfig.mk [] [] [] 12 ⟨0, 0⟩ 7) 0 0 rfl

/-- **C5.** In the SAFE zone, when both classifier parts are present but the
invocation fails (the scaler raises, or the scaler succeeds and the model
raises), the evaluation still returns a verdict with `is_suspicious = false`
and an absent model prediction; the failure is not propagated. -/
theorem classifier_failure_recovered (cfg : GeofenceConfig)
    (m : List ℝ → Except Unit ℤ) (s : List ℝ → Except Unit (List ℝ))
    (la lo sp di : ℝ)
    (hsafe : (check_geofence_status cfg la lo).1 = 1)
    (hfail : s [la, lo, sp, di, (1 : ℝ), 0] = Except.error () ∨
      ∃ sc, s [la, lo, sp, di, (1 : ℝ), 0] = Except.ok sc ∧
        m sc = Except.error ()) :
    (analyze_boat_data cfg (some m) (some s) la lo sp di).is_suspicious = false ∧
    (analyze_boat_data cfg (some m) (some s) la lo sp di).model_prediction = none ∧
    (analyze_boat_data cfg (some m) (some s) la lo sp di).zone_status = 1 := by
  unfold analyze_boat_data
  simp only [hsafe]
  norm_num
  rcases hfail with hf | ⟨sc, hok, hm⟩
  · simp [hf]
  · simp [hok, hm]

/-- **C10.** If the model or the scaler is missing, the evaluation is
identical to the no-classifier evaluation, and in the SAFE zone the verdict
is not suspicious with an absent model prediction. -/
theorem classifier_requires_model_and_scaler (cfg : GeofenceConfig)
    (model : Option (List ℝ → Except Unit ℤ))
    (scaler : Option (List ℝ → Except Unit (List ℝ))) (la lo sp di : ℝ)
    (h : model = none ∨ scaler = none) :
    analyze_boat_data cfg model scaler la lo sp di =
      analyze_boat_data cfg none none la lo sp di ∧
    ((check_geofence_status cfg la lo).1 = 1 →
      (analyze_boat_data cfg model scaler la lo sp di).is_suspicious = false ∧
      (analyze_boat_data cfg model scaler la lo sp di).model_prediction = none) := by
  have hz := zone_status_eq_zero_or_one cfg la lo
  constructor
  · rcases h with rfl | rfl
    · rcases scaler with _ | s <;>
        (unfold analyze_boat_data; rcases hz with h1 | h1 <;> simp [h1])
    · rcases model with _ | m <;>
        (unfold analyze_boat_data; rcases hz with h1 | h1 <;> simp [h1])
  · intro hsafe
    rcases h with rfl | rfl
    · rcases scaler with _ | s <;> (unfold analyze_boat_data; simp [hsafe])
    · rcases model with _ | m <;> (unfold analyze_boat_data; simp [hsafe])

/-! ### Quantitative bounds on the haversine distance -/

lemma self_le_arcsin (x : ℝ) (h0 : 0 ≤ x) (h1 : x ≤ 1) : x ≤ Real.arcsin x := by
  have hy0 : 0 ≤ Real.arcsin x := Real.arcsin_nonneg.mpr h0
  have hsin : Real.sin (Real.arcsin x) = x := Real.sin_arcsin (by linarith) h1
  rcases eq_or_lt_of_le hy0 with heq | hlt
  · have hx : x = 0 := by rw [← hsin, ← heq, Real.sin_zero]
    linarith
  · have h := Real.sin_lt hlt
    rw [hsin] at h
    exact h.le

/-- If the intermediate quantity `a` of the haversine formula is at least a
rational `q` with `(12/12742)^2 < q`, and `a ≤ 1`, the distance exceeds the
12 km threshold. -/
lemma haversine_gt_twelve (lat1 lon1 lat2 lon2 q : ℝ)
    (hq : ((12 : ℝ) / 12742) ^ 2 < q)
    (hlb : q ≤ hav_a lat1 lon1 lat2 lon2)
    (hub : hav_a lat1 lon1 lat2 lon2 ≤ 1) :
    12 < haversine lat1 lon1 lat2 lon2 := by
  unfold haversine
  have hsq : (12 : ℝ) / 12742 < Real.sqrt (hav_a lat1 lon1 lat2 lon2) :=
    Real.lt_sqrt_of_sq_lt (lt_of_lt_of_le hq hlb)
  have hsqle : Real.sqrt (hav_a lat1 lon1 lat2 lon2) ≤ 1 := by
    rw [show (1 : ℝ) = Real.sqrt 1 by rw [Real.sqrt_one]]
    exact Real.sqrt_le_sqrt hub
  have harc : Real.sqrt (hav_a lat1 lon1 lat2 lon2) ≤
      Real.arcsin (Real.sqrt (hav_a lat1 lon1 lat2 lon2)) :=
    self_le_arcsin _ (Real.sqrt_nonneg _) hsqle
  nlinarith [hsq, harc]

/-- Lower bound for `sin (c·π) ^ 2` with `c` a small positive rational, via
`x - x^3/4 < sin x` and the numeric bounds on `π`. -/
lemma sin_mul_pi_sq_lb (c q : ℝ) (hc : 0 < c) (hle : c * 3.141593 ≤ 1)
    (h0 : 0 ≤ c * 3.141592 - (c * 3.141593) ^ 3 / 4)
    (hq : q ≤ (c * 3.141592 - (c * 3.141593) ^ 3 / 4) ^ 2) :
    q ≤ Real.sin (c * Real.pi) ^ 2 := by
  have hpi_lb : (3.141592 : ℝ) < Real.pi := Real.pi_gt_d6
  have hpi_ub : Real.pi < 3.141593 := Real.pi_lt_d6
  have hx0 : 0 < c * Real.pi := mul_pos hc Real.pi_pos
  have hx1 : c * Real.pi ≤ 1 := by nlinarith
  have hcube := Real.sin_gt_sub_cube hx0 hx1
  have hmono1 : c * 3.141592 ≤ c * Real.pi := by nlinarith
  have hmono2 : (c * Real.pi) ^ 3 ≤ (c * 3.141593) ^ 3 :=
    pow_le_pow_left₀ (le_of_lt hx0) (by nlinarith) 3
  have hsin : c * 3.141592 - (c * 3.141593) ^ 3 / 4 ≤ Real.sin (c * Real.pi) := by
    linarith
  have hsq : (c * 3.141592 - (c * 3.141593) ^ 3 / 4) ^ 2 ≤
      Real.sin (c * Real.pi) ^ 2 := pow_le_pow_left₀ h0 hsin 2
  linarith

/-- `cos (c·π)` is bounded below by `1 - b^2/2` whenever `c·3.141593 ≤ b`
and `0 ≤ c`. -/
lemma cos_mul_pi_lb (c b : ℝ) (hc : 0 ≤ c) (hb : c * 3.141593 ≤ b) :
    1 - b ^ 2 / 2 ≤ Real.cos (c * Real.pi) := by
  have h := Real.one_sub_sq_div_two_le_cos (x := c * Real.pi)
  have hb0 : 0 ≤ c * Real.pi := mul_nonneg hc Real.pi_pos.le
  have h2 : (c * Real.pi) ^ 2 ≤ b ^ 2 :=
    pow_le_pow_left₀ hb0 (by nlinarith [Real.pi_lt_d6]) 2
  linarith

lemma cos_radians_nonneg (x : ℝ) (h0 : 0 ≤ x) (h1 : x ≤ 90) :
    0 ≤ Real.cos (radians x) := by
  unfold radians
  apply Real.cos_nonneg_of_mem_Icc
  constructor
  · have : 0 ≤ x * Real.pi / 180 := by positivity
    nlinarith [Real.pi_pos]
  · nlinarith [Real.pi_pos]

lemma sin_sq_eq_of_neg (c : ℝ) :
    Real.sin (-(c * Real.pi)) ^ 2 = Real.sin (c * Real.pi) ^ 2 := by
  rw [Real.sin_neg, neg_sq]

/-- The first haversine term alone bounds `hav_a` from below when the two
cosines are nonnegative. -/
lemma hav_a_ge_fst (lat1 lon1 lat2 lon2 : ℝ)
    (h1 : 0 ≤ Real.cos (radians lat1)) (h2 : 0 ≤ Real.cos (radians lat2)) :
    Real.sin ((radians lat2 - radians lat1) / 2) ^ 2 ≤
      hav_a lat1 lon1 lat2 lon2 := by
  unfold hav_a
  have h := mul_nonneg (mul_nonneg h1 h2)
    (sq_nonneg (Real.sin ((radians lon2 - radians lon1) / 2)))
  linarith

/-- `hav_a ≤ 1` for small angular separations. -/
lemma hav_a_ub (lat1 lon1 lat2 lon2 c c' : ℝ)
    (e1 : (radians lat2 - radians lat1) / 2 = c * Real.pi)
    (e2 : (radians lon2 - radians lon1) / 2 = c' * Real.pi)
    (h : c ^ 2 * 3.141593 ^ 2 + c' ^ 2 * 3.141593 ^ 2 ≤ 1) :
    hav_a lat1 lon1 lat2 lon2 ≤ 1 := by
  unfold hav_a
  rw [e1, e2]
  have hpi2 : Real.pi ^ 2 ≤ (3.141593 : ℝ) ^ 2 :=
    pow_le_pow_left₀ Real.pi_pos.le Real.pi_lt_d6.le 2
  have h1 : Real.sin (c * Real.pi) ^ 2 ≤ c ^ 2 * 3.141593 ^ 2 := by
    refine le_trans Real.sin_sq_le_sq ?_
    have he : (c * Real.pi) ^ 2 = c ^ 2 * Real.pi ^ 2 := by ring
    rw [he]
    nlinarith [sq_nonneg c]
  have h2 : Real.sin (c' * Real.pi) ^ 2 ≤ c' ^ 2 * 3.141593 ^ 2 := by
    refine le_trans Real.sin_sq_le_sq ?_
    have he : (c' * Real.pi) ^ 2 = c' ^ 2 * Real.pi ^ 2 := by ring
    rw [he]
    nlinarith [sq_nonneg c']
  have h3 : Real.cos (radians lat1) * Real.cos (radians lat2) ≤ 1 := by
    calc Real.cos (radians lat1) * Real.cos (radians lat2)
        ≤ |Real.cos (radians lat1) * Real.cos (radians lat2)| := le_abs_self _
      _ = |Real.cos (radians lat1)| * |Real.cos (radians lat2)| := abs_mul _ _
      _ ≤ 1 * 1 := mul_le_mul (Real.abs_cos_le_one _) (Real.abs_cos_le_one _)
            (abs_nonneg _) (by norm_num)
      _ = 1 := by norm_num
  have h4 : Real.cos (radians lat1) * Real.cos (radians lat2) *
      Real.sin (c' * Real.pi) ^ 2 ≤ Real.sin (c' * Real.pi) ^ 2 := by
    have := mul_le_mul_of_nonneg_right h3 (sq_nonneg (Real.sin (c' * Real.pi)))
    linarith
  linarith

/-! ### The configured center (9.0, 79.8) is more than 12 km from every
boundary vertex -/

lemma vertex1_far : 12 < haversine 9 79.8 10.05 80.03 := by
  apply haversine_gt_twelve 9 79.8 10.05 80.03
    ((7 / 2400 * 3.141592 - (7 / 2400 * 3.141593) ^ 3 / 4) ^ 2)
  · norm_num
  · refine le_trans ?_ (hav_a_ge_fst 9 79.8 10.05 80.03
      (cos_radians_nonneg 9 (by norm_num) (by norm_num))
      (cos_radians_nonneg 10.05 (by norm_num) (by norm_num)))
    have e1 : (radians 10.05 - radians 9) / 2 = (7 / 2400 : ℝ) * Real.pi := by
      unfold radians; ring
    rw [e1]
    exact sin_mul_pi_sq_lb (7 / 2400) _ (by norm_num) (by norm_num)
      (by norm_num) (le_refl _)
  · exact hav_a_ub 9 79.8 10.05 80.03 (7 / 2400) (23 / 36000)
      (by unfold radians; ring) (by unfold radians; ring) (by norm_num)

lemma vertex2_far : 12 < haversine 9 79.8 9.5 79.9 := by
  apply haversine_gt_twelve 9 79.8 9.5 79.9
    ((1 / 720 * 3.141592 - (1 / 720 * 3.141593) ^ 3 / 4) ^ 2)
  · norm_num
  · refine le_trans ?_ (hav_a_ge_fst 9 79.8 9.5 79.9
      (cos_radians_nonneg 9 (by norm_num) (by norm_num))
      (cos_radians_nonneg 9.5 (by norm_num) (by norm_num)))
    have e1 : (radians 9.5 - radians 9) / 2 = (1 / 720 : ℝ) * Real.pi := by
      unfold radians; ring
    rw [e1]
    exact sin_mul_pi_sq_lb (1 / 720) _ (by norm_num) (by norm_num)
      (by norm_num) (le_refl _)
  · exact hav_a_ub 9 79.8 9.5 79.9 (1 / 720) (1 / 3600)
      (by unfold radians; ring) (by unfold radians; ring) (by norm_num)

lemma vertex3_far : 12 < haversine 9 79.8 9.22 79.8 := by
  apply haversine_gt_twelve 9 79.8 9.22 79.8
    ((11 / 18000 * 3.141592 - (11 / 18000 * 3.141593) ^ 3 / 4) ^ 2)
  · norm_num
  · refine le_trans ?_ (hav_a_ge_fst 9 79.8 9.22 79.8
      (cos_radians_nonneg 9 (by norm_num) (by norm_num))
      (cos_radians_nonneg 9.22 (by norm_num) (by norm_num)))
    have e1 : (radians 9.22 - radians 9) / 2 = (11 / 18000 : ℝ) * Real.pi := by
      unfold radians; ring
    rw [e1]
    exact sin_mul_pi_sq_lb (11 / 18000) _ (by norm_num) (by norm_num)
      (by norm_num) (le_refl _)
  · exact hav_a_ub 9 79.8 9.22 79.8 (11 / 18000) 0
      (by unfold radians; ring) (by unfold radians; ring) (by norm_num)

lemma vertex4_far : 12 < haversine 9 79.8 8.9 79.7 := by
  have e1 : (radians 8.9 - radians 9) / 2 = -((1 / 3600 : ℝ) * Real.pi) := by
    unfold radians; ring
  have e2 : (radians 79.7 - radians 79.8) / 2 = -((1 / 3600 : ℝ) * Real.pi) := by
    unfold radians; ring
  apply haversine_gt_twelve 9 79.8 8.9 79.7
    ((1 / 3600 * 3.141592 - (1 / 3600 * 3.141593) ^ 3 / 4) ^ 2 *
      (1 + (1 - (0.05 * 3.141593) ^ 2 / 2) * (1 - (8.9 / 180 * 3.141593) ^ 2 / 2)))
  · norm_num
  · unfold hav_a
    rw [e1, e2, sin_sq_eq_of_neg]
    have hsin : (1 / 3600 * 3.141592 - (1 / 3600 * 3.141593) ^ 3 / 4 : ℝ) ^ 2 ≤
        Real.sin ((1 / 3600 : ℝ) * Real.pi) ^ 2 :=
      sin_mul_pi_sq_lb (1 / 3600) _ (by norm_num) (by norm_num) (by norm_num)
        (le_refl _)
    have hcos1 : (1 - (0.05 * 3.141593) ^ 2 / 2 : ℝ) ≤ Real.cos (radians 9) := by
      have e3 : radians 9 = (1 / 20 : ℝ) * Real.pi := by unfold radians; ring
      rw [e3]
      exact cos_mul_pi_lb (1 / 20) (0.05 * 3.141593) (by norm_num) (by norm_num)
    have hcos2 : (1 - (8.9 / 180 * 3.141593) ^ 2 / 2 : ℝ) ≤
        Real.cos (radians 8.9) := by
      have e3 : radians 8.9 = (8.9 / 180 : ℝ) * Real.pi := by unfold radians; ring
      rw [e3]
      exact cos_mul_pi_lb (8.9 / 180) (8.9 / 180 * 3.141593) (by norm_num)
        (le_refl _)
    have hk1 : (0 : ℝ) ≤ 1 - (0.05 * 3.141593) ^ 2 / 2 := by norm_num
    have hk2 : (0 : ℝ) ≤ 1 - (8.9 / 180 * 3.141593) ^ 2 / 2 := by norm_num
    have hs0 : (0 : ℝ) ≤ (1 / 3600 * 3.141592 - (1 / 3600 * 3.141593) ^ 3 / 4) ^ 2 :=
      sq_nonneg _
    have hcc : (1 - (0.05 * 3.141593) ^ 2 / 2 : ℝ) *
        (1 - (8.9 / 180 * 3.141593) ^ 2 / 2) ≤
        Real.cos (radians 9) * Real.cos (radians 8.9) :=
      mul_le_mul hcos1 hcos2 hk2 (le_trans hk1 hcos1)
    have hprod : (1 - (0.05 * 3.141593) ^ 2 / 2 : ℝ) *
        (1 - (8.9 / 180 * 3.141593) ^ 2 / 2) *
        ((1 / 3600 * 3.141592 - (1 / 3600 * 3.141593) ^ 3 / 4) ^ 2) ≤
        Real.cos (radians 9) * Real.cos (radians 8.9) *
          Real.sin ((1 / 3600 : ℝ) * Real.pi) ^ 2 :=
      mul_le_mul hcc hsin hs0 (le_trans (mul_nonneg hk1 hk2) hcc)
    nlinarith [hsin, hprod]
  · exact hav_a_ub 9 79.8 8.9 79.7 (-(1 / 3600)) (-(1 / 3600))
      (by unfold radians; ring) (by unfold radians; ring) (by norm_num)

lemma vertex5_far : 12 < haversine 9 79.8 8.2 79.35 := by
  have e1 : (radians 8.2 - radians 9) / 2 = -((1 / 450 : ℝ) * Real.pi) := by
    unfold radians; ring
  apply haversine_gt_twelve 9 79.8 8.2 79.35
    ((1 / 450 * 3.141592 - (1 / 450 * 3.141593) ^ 3 / 4) ^ 2)
  · norm_num
  · refine le_trans ?_ (hav_a_ge_fst 9 79.8 8.2 79.35
      (cos_radians_nonneg 9 (by norm_num) (by norm_num))
      (cos_radians_nonneg 8.2 (by norm_num) (by norm_num)))
    rw [e1, sin_sq_eq_of_neg]
    exact sin_mul_pi_sq_lb (1 / 450) _ (by norm_num) (by norm_num)
      (by norm_num) (le_refl _)
  · exact hav_a_ub 9 79.8 8.2 79.35 (-(1 / 450)) (-(1 / 800))
      (by unfold radians; ring) (by unfold radians; ring) (by norm_num)

/-- The minimum vertex distance from the configured center exceeds 12 km. -/
lemma center_min_gt_12 :
    (((12 : ℝ) : WithTop ℝ)) <
      check_boundary_distance 9 79.8 GEOFENCE_CONFIG.boundary_line := by
  rw [check_boundary_distance_eq_foldl]
  apply lt_foldl_minStep
  · exact WithTop.coe_lt_top 12
  · intro p hp
    simp only [GEOFENCE_CONFIG, List.mem_cons, List.not_mem_nil, or_false] at hp
    rcases hp with rfl | rfl | rfl | rfl | rfl <;> rw [WithTop.coe_lt_coe]
    · exact vertex1_far
    · exact vertex2_far
    · exact vertex3_far
    · exact vertex4_far
    · exact vertex5_far

/-- At the configured center the geofence check reports the SAFE status. -/
lemma center_status_safe :
    check_geofence_status GEOFENCE_CONFIG 9 79.8 =
      (1, check_boundary_distance 9 79.8 GEOFENCE_CONFIG.boundary_line) := by
  unfold check_geofence_status
  dsimp only
  rw [if_neg]
  have h := center_min_gt_12
  have h12 : (GEOFENCE_CONFIG.safe_distance_km : WithTop ℝ) = ((12 : ℝ) : WithTop ℝ) := rfl
  rw [h12]
  exact not_le.mpr h

/-- **C3** counterexample: at the configured center (9.0, 79.8), with the
fixed boundary line and threshold 12 km, the zone status is SAFE (`1`), not
ALERT (`0`): the claim that this point is classified ALERT is false. -/
theorem center_zone_is_safe_not_alert :
    ¬((check_geofence_status GEOFENCE_CONFIG 9 79.8).1 = 0) := by
  rw [center_status_safe]
  norm_num

/-- **C3** amended: at (9.0, 79.8) against the fixed boundary the minimum
vertex distance strictly exceeds 12 km, the zone status is SAFE, and with no
classifier present the verdict is not suspicious. -/
theorem center_evaluation_safe :
    (check_geofence_status GEOFENCE_CONFIG 9 79.8).1 = 1 ∧
    (((12 : ℝ) : WithTop ℝ)) < (check_geofence_status GEOFENCE_CONFIG 9 79.8).2 ∧
    (analyze_boat_data GEOFENCE_CONFIG none none 9 79.8 0 0).is_suspicious =
      false := by
  have h1 : (check_geofence_status GEOFENCE_CONFIG 9 79.8).1 = 1 := by
    rw [center_status_safe]
  refine ⟨h1, ?_, ?_⟩
  · rw [center_status_safe]
    exact center_min_gt_12
  · unfold analyze_boat_data
    simp [h1]

/-! ### A concrete ALERT-zone point: the boundary vertex (9.22, 79.8) -/

lemma haversine_self (lat lng : ℝ) : haversine lat lng lat lng = 0 := by
  unfold haversine hav_a
  simp

lemma vertex3_alert :
    (check_geofence_status GEOFENCE_CONFIG 9.22 79.8).1 = 0 := by
  unfold check_geofence_status
  dsimp only
  rw [if_pos]
  have hmem : (⟨9.22, 79.8⟩ : GeoPt) ∈ GEOFENCE_CONFIG.boundary_line := by
    simp [GEOFENCE_CONFIG]
  have hle := foldl_minStep_le_elem 9.22 79.8 GEOFENCE_CONFIG.boundary_line ⊤
    ⟨9.22, 79.8⟩ hmem
  rw [← check_boundary_distance_eq_foldl] at hle
  have h0 : haversine 9.22 79.8 (⟨9.22, 79.8⟩ : GeoPt).lat
      (⟨9.22, 79.8⟩ : GeoPt).lng = 0 := haversine_self 9.22 79.8
  rw [h0] at hle
  refine le_trans hle ?_
  have h12 : (GEOFENCE_CONFIG.safe_distance_km : WithTop ℝ) =
      ((12 : ℝ) : WithTop ℝ) := rfl
  rw [h12, WithTop.coe_le_coe]
  norm_num

/-- Witness for C6: at the boundary vertex (9.22, 79.8), with a classifier
present that would predict NORMAL, the verdict is suspicious with no model
prediction. -/
theorem alert_zone_suspicious_no_model_witness :
    (analyze_boat_data GEOFENCE_CONFIG (some fun _ => Except.ok 0)
      (some fun l => Except.ok l) 9.22 79.8 5 180).is_suspicious = true ∧
    (analyze_boat_data GEOFENCE_CONFIG (some fun _ => Except.ok 0)
      (some fun l => Except.ok l) 9.22 79.8 5 180).model_prediction = none :=
  alert_zone_suspicious_no_model GEOFENCE_CONFIG (some fun _ => Except.ok 0)
    (some fun l => Except.ok l) 9.22 79.8 5 180
    (by rw [analyze_zone_status]; exact vertex3_alert)

/-- Witness for C5: at the SAFE point (9.0, 79.8) with a raising scaler, the
verdict is complete, not suspicious and without model prediction. -/
theorem classifier_failure_recovered_witness :
    (analyze_boat_data GEOFENCE_CONFIG (some fun _ => Except.error ())
      (some fun _ => Except.error ()) 9 79.8 0 0).is_suspicious = false ∧
    (analyze_boat_data GEOFENCE_CONFIG (some fun _ => Except.error ())
      (some fun _ => Except.error ()) 9 79.8 0 0).model_prediction = none ∧
    (analyze_boat_data GEOFENCE_CONFIG (some fun _ => Except.error ())
      (some fun _ => Except.error ()) 9 79.8 0 0).zone_status = 1 :=
  classifier_failure_recovered GEOFENCE_CONFIG (fun _ => Except.error ())
    (fun _ => Except.error ()) 9 79.8 0 0 (by rw [center_status_safe])
    (Or.inl rfl)

/-- Witness for C10: with a model present but no scaler, the SAFE point
(9.0, 79.8) is evaluated exactly as with no classifier at all. -/
theorem classifier_requires_model_and_scaler_witness :
    (analyze_boat_data GEOFENCE_CONFIG (some fun _ => Except.ok 1) none 9 79.8 0 0 =
      analyze_boat_data GEOFENCE_CONFIG none none 9 79.8 0 0) ∧
    ((check_geofence_status GEOFENCE_CONFIG 9 79.8).1 = 1 →
      (analyze_boat_data GEOFENCE_CONFIG (some fun _ => Except.ok 1) none
        9 79.8 0 0).is_suspicious = false ∧
      (analyze_boat_data GEOFENCE_CONFIG (some fun _ => Except.ok 1) none
        9 79.8 0 0).model_prediction = none) :=
  classifier_requires_model_and_scaler GEOFENCE_CONFIG (some fun _ => Except.ok 1)
    none 9 79.8 0 0 (Or.inr rfl)

end Maritime
